import Mathlib

/-!
Shallow embedding of the PollRoom vote-submission / result-aggregation
pipeline.

Sources embedded here:
* `src/app/api/polls/[id]/vote/route.ts`    (POST — submitVote)
* `src/app/api/polls/[id]/results/route.ts` (GET — getResults)
* `src/app/api/rooms/[code]/route.ts`       (GET — room lookup)
* `src/lib/utils.ts`                        (validateRoomCode, normalizeRoomCode, isRoomExpired)
* `src/lib/kv.ts`                           (SessionManager.createSession, modelled as an effect status)
* `supabase` schema (rooms / polls / votes tables)

Modelling conventions: timestamps are integers (`new Date` comparisons become
integer comparisons at a caller-supplied `now`); JSON option values are
strings or integers; the database is an explicit record of rows; each route
returns, besides its HTTP-level outcome, the resulting database and the
number of storage-layer (supabase) calls it performed, so that frame
conditions ("no database access") are expressible.  JS string primitives
(`toUpperCase`, `trim`, the UUID regex) are embedded at the character-list
level for their ASCII behaviour, which is the range the room-code and UUID
formats use.  The percentage computation is embedded in binary64 floating
point: the division and multiplication round to the nearest double (as
exact dyadic rationals, with unbounded exponent range — exact at these
magnitudes) and `Math.round` follows ECMA-262, so double-rounding
artefacts such as 23/40 ↦ 57 are reproduced.
-/

namespace PollRoom

/-! ### JS string primitives -/

/-- ASCII behaviour of JS `String.prototype.toUpperCase` on one character. -/
def jsToUpperChar (c : Char) : Char :=
  if 97 ≤ c.toNat ∧ c.toNat ≤ 122 then Char.ofNat (c.toNat - 32) else c

/-- JS `toUpperCase` over a whole string. -/
def jsToUpperCase (s : String) : String :=
  ⟨s.data.map jsToUpperChar⟩

/-- Characters removed by JS `String.prototype.trim` (ASCII whitespace plus
NBSP and BOM; the room-code alphabet contains none of them). -/
def jsIsWhitespace (c : Char) : Bool :=
  c.toNat == 32 || (9 ≤ c.toNat && c.toNat ≤ 13) || c.toNat == 160 || c.toNat == 65279

/-- JS `trim`: drop whitespace from both ends. -/
def jsTrim (s : String) : String :=
  ⟨((s.data.dropWhile jsIsWhitespace).reverse.dropWhile jsIsWhitespace).reverse⟩

/-- `[A-Z0-9]` character class (used by `validateRoomCode`'s regex). -/
def isUpperAlnum (c : Char) : Bool :=
  (65 ≤ c.toNat && c.toNat ≤ 90) || (48 ≤ c.toNat && c.toNat ≤ 57)

/-- `[0-9a-f]` with the `i` flag (used by the UUID regex of both routes). -/
def isHexDigit (c : Char) : Bool :=
  (48 ≤ c.toNat && c.toNat ≤ 57) || (97 ≤ c.toNat && c.toNat ≤ 102) ||
    (65 ≤ c.toNat && c.toNat ≤ 70)

/-- Split a character list at a separator character (groups between
separators, like splitting a string on `'-'`). -/
def splitOnChar (sep : Char) : List Char → List (List Char)
  | [] => [[]]
  | c :: cs =>
    let r := splitOnChar sep cs
    if c = sep then [] :: r
    else
      match r with
      | [] => [[c]]
      | g :: gs => (c :: g) :: gs

/-- The UUID check of both routes:
`/^[0-9a-f]{8}-[0-9a-f]{4}-[0-9a-f]{4}-[0-9a-f]{4}-[0-9a-f]{12}$/i`.
A string matches exactly when splitting at `'-'` yields five all-hex groups
of lengths 8, 4, 4, 4, 12. -/
def isValidUuid (s : String) : Bool :=
  match splitOnChar '-' s.data with
  | [a, b, c, d, e] =>
    a.length == 8 && b.length == 4 && c.length == 4 && d.length == 4 &&
      e.length == 12 && a.all isHexDigit && b.all isHexDigit && c.all isHexDigit &&
      d.all isHexDigit && e.all isHexDigit
  | _ => false

/-! ### utils.ts -/

/-- `validateRoomCode` (utils.ts): length 6 and `/^[A-Z0-9]+$/` —
note: uppercase letters only. -/
def validateRoomCode (code : String) : Bool :=
  code.length == 6 && code.data.all isUpperAlnum

/-- `normalizeRoomCode` (utils.ts): `code.toUpperCase().trim()`. -/
def normalizeRoomCode (code : String) : String :=
  jsTrim (jsToUpperCase code)

/-- `isRoomExpired` (utils.ts): a null expiration counts as expired;
otherwise expired iff `now` is strictly past the expiration. -/
def isRoomExpired (expiresAt : Option Int) (now : Int) : Bool :=
  match expiresAt with
  | none => true
  | some t => now > t

/-! ### Data model (supabase schema + route row shapes) -/

/-- A JSON value stored in a poll's `options` object (string or integer). -/
inductive OptionVal where
  | str (s : String)
  | num (n : Int)
deriving DecidableEq, Repr

/-- A row of the `rooms` table (the fields the routes read). -/
structure Room where
  id : String
  code : String
  name : String
  created_at : Int
  expires_at : Option Int
deriving DecidableEq, Repr

/-- A row of the `polls` table, with its owning room joined in
(`rooms!inner(...)` in both routes). -/
structure Poll where
  id : String
  room : Room
  question : String
  poll_type : String
  options : List (String × OptionVal)
  is_active : Bool
deriving DecidableEq, Repr

/-- A row of the `votes` table (the payload columns; the generated row id
plays no role in the embedded logic). -/
structure VoteRow where
  poll_id : String
  session_id : String
  choice : String
deriving DecidableEq, Repr

/-- The database state the routes read and write. -/
structure DB where
  rooms : List Room
  polls : List Poll
  votes : List VoteRow
deriving DecidableEq, Repr

/-- Key lookup in a JSON options object (`options.k`). -/
def lookupOpt (options : List (String × OptionVal)) (k : String) : Option OptionVal :=
  (options.find? (fun p => p.1 == k)).map Prod.snd

/-- JS `Number(v)` on an option value; `none` models `NaN`
(`Number(undefined)` and non-numeric strings). -/
def jsNumber : Option OptionVal → Option Int
  | none => none
  | some (.num n) => some n
  | some (.str s) => s.toInt?

/-- JS `Number(v) || d`: `NaN` and `0` are falsy and fall back to `d`. -/
def jsNumberOr (v : Option OptionVal) (d : Int) : Int :=
  match jsNumber v with
  | none => d
  | some n => if n = 0 then d else n

/-- `for (let i = min; i <= max; i++) keys.push(i.toString())`. -/
def rangeKeys (lo hi : Int) : List String :=
  (List.range (hi - lo + 1).toNat).map (fun i => toString (lo + (i : Int)))

/-! ### Choice-set derivation -/

/-- The `switch (poll.poll_type)` of the vote route (vote/route.ts lines
124–141) deriving `validChoices`. -/
def voteValidChoices (pollType : String) (options : List (String × OptionVal)) : List String :=
  match pollType with
  | "yes_no" => ["yes", "no"]
  | "rating" =>
    rangeKeys (jsNumberOr (lookupOpt options "min") 1) (jsNumberOr (lookupOpt options "max") 5)
  | "multiple_choice" => options.map Prod.fst
  | _ => options.map Prod.fst

/-- The `switch (poll.poll_type)` of the results route (results/route.ts
lines 115–142) choosing which keys get a `0`-initialized bucket. -/
def resultsInitKeys (pollType : String) (options : List (String × OptionVal)) : List String :=
  match pollType with
  | "yes_no" => ["yes", "no"]
  | "rating" =>
    rangeKeys (jsNumberOr (lookupOpt options "min") 1) (jsNumberOr (lookupOpt options "max") 5)
  | "multiple_choice" => options.map Prod.fst
  | _ => options.map Prod.fst

/-! ### Route responses -/

/-- An error response body `{success: false, error, details}` with its HTTP
status. -/
structure ErrResp where
  status : Nat
  error : String
  details : String
deriving DecidableEq, Repr

def voteUuidErr : ErrResp := ⟨400, "Invalid poll ID", "Poll ID must be a valid UUID"⟩
def choiceRequiredErr : ErrResp := ⟨400, "Invalid choice", "Choice is required and must be a string"⟩
def pollNotFoundErr : ErrResp := ⟨404, "Poll not found", "No poll exists with this ID"⟩
def pollInactiveErr : ErrResp := ⟨410, "Poll inactive", "This poll is no longer accepting votes"⟩
def roomExpiredErr : ErrResp := ⟨410, "Room expired", "The room containing this poll has expired"⟩

/-- The invalid-choice rejection (vote route lines 143–152); its details
string lists the whole derived choice set, joined by `", "`. -/
def invalidChoiceErr (validChoices : List String) : ErrResp :=
  ⟨400, "Invalid choice", "Choice must be one of: " ++ String.intercalate ", " validChoices⟩

def alreadyVotedErr : ErrResp := ⟨409, "Already voted", "You have already voted on this poll"⟩
def voteServerErr : ErrResp :=
  ⟨500, "Internal server error", "An unexpected error occurred while processing the vote"⟩

/-- Status of the external KV store as seen by one `createSession` call
(kv.ts): `unavailable` — `getKvClientSafe` returned null and the write is
skipped; `available` — the `setex` write succeeds; `throws` — the `setex`
write rejects, and `createSession` has no try/catch of its own, so the
rejection propagates to the route's outer catch. -/
inductive KVStatus where
  | unavailable
  | available
  | throws
deriving DecidableEq, Repr

/-- Outcome of the vote route: an error response or the 201 payload built
from the inserted row. -/
inductive VoteOutcome where
  | err (e : ErrResp)
  | success (v : VoteRow)
deriving DecidableEq, Repr

/-! ### POST /polls/[id]/vote -/

/-- The vote route (vote/route.ts POST), in its exact check order: UUID
format, choice present/non-empty (falsy check), poll lookup, `is_active`,
room expiration (null, then strictly past), choice membership in the derived
set, duplicate (poll_id, session_id) lookup, insert, then the
`SessionManager.createSession` side effect.  Returns the outcome, the
resulting database, and the number of supabase calls made. -/
def submitVote (db : DB) (kv : KVStatus) (pollId sessionId choice : String) (now : Int) :
    VoteOutcome × DB × Nat :=
  if !isValidUuid pollId then (.err voteUuidErr, db, 0)
  else if choice == "" then (.err choiceRequiredErr, db, 0)
  else
    match db.polls.find? (fun p => p.id == pollId) with
    | none => (.err pollNotFoundErr, db, 1)
    | some poll =>
      if !poll.is_active then (.err pollInactiveErr, db, 1)
      else
        match poll.room.expires_at with
        | none => (.err roomExpiredErr, db, 1)
        | some t =>
          if now > t then (.err roomExpiredErr, db, 1)
          else
            let validChoices := voteValidChoices poll.poll_type poll.options
            if !validChoices.contains choice then
              (.err (invalidChoiceErr validChoices), db, 1)
            else
              match db.votes.find? (fun v => v.poll_id == pollId && v.session_id == sessionId) with
              | some _ => (.err alreadyVotedErr, db, 2)
              | none =>
                let row : VoteRow := ⟨pollId, sessionId, choice⟩
                let db' : DB := ⟨db.rooms, db.polls, db.votes ++ [row]⟩
                match kv with
                | .throws => (.err voteServerErr, db', 3)
                | _ => (.success row, db', 3)

/-! ### GET /polls/[id]/results -/

/-- One formatted entry `{label, count, percentage}`. -/
structure ResultEntry where
  label : String
  count : Nat
  percentage : Nat
deriving DecidableEq, Repr

/-- The results payload (the poll/room echo fields other than the vote data
are omitted: they are copied verbatim from the fetched rows). -/
structure ResultSet where
  poll_id : String
  question : String
  poll_type : String
  total_votes : Nat
  results : List (String × ResultEntry)
deriving DecidableEq, Repr

inductive ResultsOutcome where
  | err (e : ErrResp)
  | ok (r : ResultSet)
deriving DecidableEq, Repr

/-- `voteCounts[k]` after the counting loop: the number of fetched votes
whose choice equals `k` (votes matching no initialized key increment
nothing). -/
def countChoice (votes : List VoteRow) (k : String) : Nat :=
  (votes.filter (fun v => v.choice == k)).length

/-- Fuel-based binary length: number of bits of `n` (0 for `n = 0`). -/
def bitLenAux (fuel n : Nat) : Nat :=
  match fuel with
  | 0 => 0
  | fuel + 1 => if n = 0 then 0 else bitLenAux fuel (n / 2) + 1

def natBitLen (n : Nat) : Nat := bitLenAux n n

/-- Round the fraction `num / den` (`den > 0`) to the nearest integer, ties
to even — the IEEE-754 default rounding applied to an exact real mantissa. -/
def roundNearEven (num den : Nat) : Nat :=
  let f := num / den
  let r := num % den
  if 2 * r < den then f
  else if den < 2 * r then f + 1
  else if f % 2 = 0 then f else f + 1

/-- The binary64 double nearest to `a / b` (`a, b ≥ 1`), as a dyadic pair
`(m, s)` of value `m · 2^(-s)` with `m ∈ [2^52, 2^53]`: normalize the
quotient into `[2^52, 2^53)` by a power-of-two shift, then round the
53-bit mantissa to nearest, ties to even.  The exponent is unbounded here
(no overflow or subnormals), which is exact for the count/total magnitudes
these routes produce. -/
def flDiv (a b : Nat) : Nat × Int :=
  let t : Int := 53 + (natBitLen b : Int) - (natBitLen a : Int)
  let num0 := if 0 ≤ t then a * 2 ^ t.toNat else a
  let den0 := if 0 ≤ t then b else b * 2 ^ (-t).toNat
  if 2 ^ 53 * den0 ≤ num0 then (roundNearEven num0 (den0 * 2), t - 1)
  else (roundNearEven num0 den0, t)

/-- The binary64 double nearest to `(m · 2^(-s)) * 100` (the factor 100 is
exact): round the 60-bit-at-most product `100 · m` back to 53 bits. -/
def flMul100 (m : Nat) (s : Int) : Nat × Int :=
  let p := 100 * m
  let l := natBitLen p
  if l ≤ 53 then (p, s)
  else (roundNearEven p (2 ^ (l - 53)), s - (l - 53 : Nat))

/-- ECMA-262 `Math.round` on a nonnegative double `m · 2^(-s)`: the closest
integer to the double's exact value, halves rounded toward `+∞`. -/
def jsMathRoundPos (m : Nat) (s : Int) : Nat :=
  if s ≤ 0 then m * 2 ^ (-s).toNat
  else (2 * m + 2 ^ s.toNat) / 2 ^ (s.toNat + 1)

/-- `Math.round((voteCounts[option] / totalVotes) * 100)` guarded by
`totalVotes > 0` (percentages stay 0 otherwise), in binary64 arithmetic:
the division and the multiplication by 100 each round to the nearest
double (counts and totals themselves are exact doubles), and `Math.round`
then rounds that double's exact value, halves up.  The double rounding
makes this differ from exact rational rounding at some inputs: 23/40 gives
the double 57.49999999999999… and hence 57, where exact rounding of 57.5
gives 58. -/
def jsRoundPct (count total : Nat) : Nat :=
  if total = 0 then 0
  else if count = 0 then 0
  else
    let p1 := flDiv count total
    let p2 := flMul100 p1.1 p1.2
    jsMathRoundPos p2.1 p2.2

/-- JS `String(v)` on an option value known to be present. -/
def strOfVal : OptionVal → String
  | .str s => s
  | .num n => toString n

/-- JS `String(v ⊔ d)` where missing, `""` and `0` are falsy
(`String(options.yes || 'Yes')`). -/
def jsStringOr (v : Option OptionVal) (d : String) : String :=
  match v with
  | none => d
  | some (.str "") => d
  | some (.num 0) => d
  | some (.str s) => s
  | some (.num n) => toString n

/-- JS `String(options[k])` (no fallback; a key absent from the object would
print as `"undefined"`). -/
def mcLabel (options : List (String × OptionVal)) (k : String) : String :=
  match lookupOpt options k with
  | none => "undefined"
  | some v => strOfVal v

/-- The formatting `switch` of the results route (lines 161–212).  It
re-derives the same key list as the bucket initialization and reads
`voteCounts[key] || 0` / `votePercentages[key] || 0`, which — the buckets
having been initialized for exactly these keys — are `countChoice` and
`jsRoundPct` of that count. -/
def formatResults (pollType : String) (options : List (String × OptionVal))
    (votes : List VoteRow) (total : Nat) : List (String × ResultEntry) :=
  match pollType with
  | "yes_no" =>
    [("yes", ⟨jsStringOr (lookupOpt options "yes") "Yes", countChoice votes "yes",
        jsRoundPct (countChoice votes "yes") total⟩),
     ("no", ⟨jsStringOr (lookupOpt options "no") "No", countChoice votes "no",
        jsRoundPct (countChoice votes "no") total⟩)]
  | "rating" =>
    (rangeKeys (jsNumberOr (lookupOpt options "min") 1)
        (jsNumberOr (lookupOpt options "max") 5)).map
      (fun k => (k, ⟨k, countChoice votes k, jsRoundPct (countChoice votes k) total⟩))
  | "multiple_choice" =>
    options.map
      (fun p => (p.1, ⟨strOfVal p.2, countChoice votes p.1,
          jsRoundPct (countChoice votes p.1) total⟩))
  | _ =>
    options.map
      (fun p => (p.1, ⟨strOfVal p.2, countChoice votes p.1,
          jsRoundPct (countChoice votes p.1) total⟩))

/-- The results route (results/route.ts GET): UUID format, poll lookup, room
expiration (null, then strictly past), fetch the poll's votes, aggregate.
Returns the outcome and the number of supabase calls made (a pure read:
the database is not modified). -/
def getResults (db : DB) (pollId : String) (now : Int) : ResultsOutcome × Nat :=
  if !isValidUuid pollId then (.err voteUuidErr, 0)
  else
    match db.polls.find? (fun p => p.id == pollId) with
    | none => (.err pollNotFoundErr, 1)
    | some poll =>
      match poll.room.expires_at with
      | none => (.err roomExpiredErr, 1)
      | some t =>
        if now > t then (.err roomExpiredErr, 1)
        else
          let votes := db.votes.filter (fun v => v.poll_id == pollId)
          (.ok ⟨pollId, poll.question, poll.poll_type, votes.length,
            formatResults poll.poll_type poll.options votes votes.length⟩, 2)

/-! ### GET /rooms/[code] -/

def roomCodeErr : ErrResp :=
  ⟨400, "Invalid room code", "Room code must be exactly 6 alphanumeric characters"⟩
def roomNotFoundErr : ErrResp := ⟨404, "Room not found", "No room exists with this code"⟩
def roomGoneErr : ErrResp :=
  ⟨410, "Room expired", "This room has expired and is no longer accessible"⟩
def roomServerErr : ErrResp :=
  ⟨500, "Internal server error", "An unexpected error occurred while looking up the room"⟩

inductive RoomOutcome where
  | err (e : ErrResp)
  | ok (r : Room)
deriving DecidableEq, Repr

/-- The room-lookup route (rooms/[code]/route.ts GET): validate the raw code
(uppercase-only alphabet), normalize, look up by the normalized code, check
expiration, then the `createSession` side effect, then 200. -/
def getRoom (db : DB) (kv : KVStatus) (code : String) (now : Int) : RoomOutcome × Nat :=
  if !validateRoomCode code then (.err roomCodeErr, 0)
  else
    let normalizedCode := normalizeRoomCode code
    match db.rooms.find? (fun r => r.code == normalizedCode) with
    | none => (.err roomNotFoundErr, 1)
    | some room =>
      if isRoomExpired room.expires_at now then (.err roomGoneErr, 1)
      else
        match kv with
        | .throws => (.err roomServerErr, 1)
        | _ => (.ok room, 1)

/-! ### Spec-side definitions (for refinement comparisons) -/

/-- The integer `min`/`max` bounds of a rating poll's options, when both are
stored as numbers. -/
def ratingBounds (options : List (String × OptionVal)) : Option (Int × Int) :=
  match lookupOpt options "min", lookupOpt options "max" with
  | some (.num m), some (.num mx) => some (m, mx)
  | _, _ => none

/-- Modelled from the spec: the §4.1 table of derived legal choice sets,
written from the spec's words — binary polls get exactly `{"yes","no"}`,
numeric-range polls every integer in `[min, max]` stringified, and
enumerated-choice polls the option-mapping keys.  Used only to compare
against the code's derivations. -/
def specLegalChoices (p : Poll) : List String :=
  match p.poll_type with
  | "yes_no" => ["yes", "no"]
  | "rating" =>
    match ratingBounds p.options with
    | some (m, mx) => rangeKeys m mx
    | none => []
  | "multiple_choice" => p.options.map Prod.fst
  | _ => []

/-- A poll shape the system can actually contain, mirroring the create-route
validation (polls/create/route.ts lines 71–129): a known type tag; for
rating polls both bounds present, truthy (nonzero) and `min < max`; for
multiple-choice at least two options — plus the JS-object guarantee that
option keys are distinct. -/
def wellFormedPoll (p : Poll) : Bool :=
  (p.options.map Prod.fst).Nodup &&
    match p.poll_type with
    | "yes_no" => true
    | "rating" =>
      match ratingBounds p.options with
      | some (m, mx) => m ≠ 0 && mx ≠ 0 && m < mx
      | none => false
    | "multiple_choice" => 2 ≤ p.options.length
    | _ => false

/-! ### Concrete fixtures used by witnesses and counterexamples -/

/-- A syntactically valid poll UUID. -/
def pidYesNo : String := "123e4567-e89b-12d3-a456-426614174000"

def pidRating : String := "00000000-0000-0000-0000-000000000001"

def pidInactive : String := "00000000-0000-0000-0000-000000000004"

def pidActiveExpired : String := "00000000-0000-0000-0000-000000000005"

def pidMC : String := "00000000-0000-0000-0000-000000000006"

/-- A room whose expiration (1000) is in the future for the sample `now = 5`. -/
def roomFresh : Room := ⟨"room-1", "ABC123", "Demo room", 0, some 1000⟩

/-- A room whose expiration (-10) is already past at the sample `now = 5`. -/
def roomDead : Room := ⟨"room-2", "DEAD00", "Old room", -100, some (-10)⟩

def pollYesNo : Poll := ⟨pidYesNo, roomFresh, "Ready?", "yes_no", [], true⟩

def pollRating : Poll :=
  ⟨pidRating, roomFresh, "Rate it", "rating", [("min", .num 1), ("max", .num 5)], true⟩

/-- A poll that is both deactivated and in an expired room. -/
def pollInactive : Poll := ⟨pidInactive, roomDead, "Done?", "yes_no", [], false⟩

/-- An active poll whose owning room has expired. -/
def pollActiveExpired : Poll := ⟨pidActiveExpired, roomDead, "Late?", "yes_no", [], true⟩

def dbYesNo : DB := ⟨[roomFresh], [pollYesNo], []⟩

def dbRating : DB := ⟨[roomFresh], [pollRating], []⟩

def dbC4 : DB := ⟨[roomDead], [pollInactive, pollActiveExpired], []⟩

def dbRooms : DB := ⟨[roomFresh], [], []⟩

/-- A database in which session "sessA" has already voted "yes" on the
binary poll. -/
def dbVoted : DB := ⟨[roomFresh], [pollYesNo], [⟨pidYesNo, "sessA", "yes"⟩]⟩

/-- One legal vote plus one out-of-range vote ("9") on the rating poll. -/
def dbC8 : DB :=
  ⟨[roomFresh], [pollRating], [⟨pidRating, "s1", "3"⟩]⟩

/-- 40 votes on the 1–5 rating poll: counts 7/7/7/9/9 on the legal choices
plus one vote "0" outside the legal set. -/
def c10votes : List VoteRow :=
  List.replicate 7 ⟨pidRating, "sa", "1"⟩ ++ List.replicate 7 ⟨pidRating, "sb", "2"⟩ ++
    List.replicate 7 ⟨pidRating, "sc", "3"⟩ ++ List.replicate 9 ⟨pidRating, "sd", "4"⟩ ++
    List.replicate 9 ⟨pidRating, "se", "5"⟩ ++ [⟨pidRating, "sf", "0"⟩]

def dbC10 : DB := ⟨[roomFresh], [pollRating], c10votes⟩

/-- 40 votes on the binary poll: 23 "yes", 17 "no". -/
def votesC3 : List VoteRow :=
  List.replicate 23 ⟨pidYesNo, "sy", "yes"⟩ ++ List.replicate 17 ⟨pidYesNo, "sn", "no"⟩

def dbC3 : DB := ⟨[roomFresh], [pollYesNo], votesC3⟩

/-- What the aggregator reports for `dbC3`: in binary64, 23/40 * 100
evaluates to 57.49999999999999… so "yes" gets 57 (exact rounding of 57.5
would give 58), while 17/40 * 100 evaluates to exactly 42.5 so "no" gets
43. -/
def resC3 : ResultSet :=
  ⟨pidYesNo, "Ready?", "yes_no", 40,
    [("yes", ⟨"Yes", 23, 57⟩), ("no", ⟨"No", 17, 43⟩)]⟩

/-- The result set the aggregator produces for `dbC10`: percentages
18/18/18/23/23, which sum to exactly 100 although one of the 40 votes is
unrecognized. -/
def resC10 : ResultSet :=
  ⟨pidRating, "Rate it", "rating", 40,
    [("1", ⟨"1", 7, 18⟩), ("2", ⟨"2", 7, 18⟩), ("3", ⟨"3", 7, 18⟩),
      ("4", ⟨"4", 9, 23⟩), ("5", ⟨"5", 9, 23⟩)]⟩

/-! ### Helper lemmas -/

theorem jsToUpperChar_eq_self {c : Char} (h : isUpperAlnum c = true) :
    jsToUpperChar c = c := by
  unfold isUpperAlnum at h
  simp only [Bool.or_eq_true, Bool.and_eq_true, decide_eq_true_eq] at h
  unfold jsToUpperChar
  rw [if_neg]
  omega

theorem jsIsWhitespace_eq_false {c : Char} (h : isUpperAlnum c = true) :
    jsIsWhitespace c = false := by
  unfold isUpperAlnum at h
  simp only [Bool.or_eq_true, Bool.and_eq_true, decide_eq_true_eq] at h
  unfold jsIsWhitespace
  simp only [Bool.or_eq_false_iff, Bool.and_eq_false_iff, beq_eq_false_iff_ne, ne_eq,
    decide_eq_false_iff_not, not_le]
  omega

theorem dropWhile_ws_eq_self {l : List Char} (h : ∀ c ∈ l, isUpperAlnum c = true) :
    l.dropWhile jsIsWhitespace = l := by
  cases l with
  | nil => rfl
  | cons a l =>
    have ha : jsIsWhitespace a = false :=
      jsIsWhitespace_eq_false (h a (List.mem_cons_self a l))
    simp [List.dropWhile_cons, ha]

theorem normalizeRoomCode_eq_self {code : String} (h : code.data.all isUpperAlnum = true) :
    normalizeRoomCode code = code := by
  have h' : ∀ c ∈ code.data, isUpperAlnum c = true := by
    simpa [List.all_eq_true] using h
  have hmap : code.data.map jsToUpperChar = code.data := by
    have : code.data.map jsToUpperChar = code.data.map id :=
      List.map_congr_left (fun c hc => jsToUpperChar_eq_self (h' c hc))
    simpa using this
  unfold normalizeRoomCode jsToUpperCase jsTrim
  simp only [hmap]
  rw [dropWhile_ws_eq_self h']
  rw [dropWhile_ws_eq_self (by intro c hc; exact h' c (List.mem_reverse.mp hc))]
  simp

theorem ratingBounds_lookup {options : List (String × OptionVal)} {m mx : Int}
    (h : ratingBounds options = some (m, mx)) :
    lookupOpt options "min" = some (.num m) ∧ lookupOpt options "max" = some (.num mx) := by
  unfold ratingBounds at h
  split at h
  · rename_i m' mx' hm hx
    injection h with h'
    injection h' with e1 e2
    subst e1
    subst e2
    exact ⟨hm, hx⟩
  · exact absurd h (by simp)

theorem jsNumberOr_num {v : Option OptionVal} {n d : Int}
    (hv : v = some (.num n)) (hn : n ≠ 0) : jsNumberOr v d = n := by
  subst hv
  unfold jsNumberOr jsNumber
  simp [hn]

/-- Under the creatable-poll shape, the code's choice-set derivation computes
exactly the spec's §4.1 table. -/
theorem voteValidChoices_eq_spec {p : Poll} (h : wellFormedPoll p = true) :
    voteValidChoices p.poll_type p.options = specLegalChoices p := by
  unfold wellFormedPoll at h
  rw [Bool.and_eq_true] at h
  obtain ⟨-, h⟩ := h
  unfold voteValidChoices specLegalChoices
  split at h
  · rename_i heq
    simp [heq]
  · rename_i heq
    split at h
    · rename_i m mx hb
      obtain ⟨hm, hx⟩ := ratingBounds_lookup hb
      simp only [Bool.and_eq_true, decide_eq_true_eq] at h
      simp [heq, hb, jsNumberOr_num hm h.1.1, jsNumberOr_num hx h.1.2]
    · exact absurd h (by simp)
  · rename_i heq
    simp [heq]
  · exact absurd h (by simp)

/-- Reduction of `submitVote` once the identifier, choice-presence, lookup,
activity and expiration checks have all passed. -/
theorem submitVote_reaches_choice_check
    (db : DB) (kv : KVStatus) (pid sid choice : String) (now t : Int) (poll : Poll)
    (huuid : isValidUuid pid = true) (hch : choice ≠ "")
    (hfind : db.polls.find? (fun p => p.id == pid) = some poll)
    (hact : poll.is_active = true)
    (hexp : poll.room.expires_at = some t) (hnow : ¬ now > t) :
    submitVote db kv pid sid choice now =
      (if !(voteValidChoices poll.poll_type poll.options).contains choice then
        (.err (invalidChoiceErr (voteValidChoices poll.poll_type poll.options)), db, 1)
      else
        match db.votes.find? (fun v => v.poll_id == pid && v.session_id == sid) with
        | some _ => (.err alreadyVotedErr, db, 2)
        | none =>
          match kv with
          | .throws =>
            (.err voteServerErr, ⟨db.rooms, db.polls, db.votes ++ [⟨pid, sid, choice⟩]⟩, 3)
          | _ =>
            (.success ⟨pid, sid, choice⟩,
              ⟨db.rooms, db.polls, db.votes ++ [⟨pid, sid, choice⟩]⟩, 3)) := by
  have hch' : (choice == "") = false := beq_eq_false_iff_ne.mpr hch
  unfold submitVote
  simp [huuid, hch', hfind, hact, hexp, hnow]

theorem jsRoundPct_zero_count (total : Nat) : jsRoundPct 0 total = 0 := by
  unfold jsRoundPct
  by_cases h : total = 0
  · simp [h]
  · simp [h]

/-- The formatted result list is keyed exactly by the derived choice set,
and each entry carries that key's vote count and its rounded percentage. -/
theorem formatResults_spec (pollType : String) (options : List (String × OptionVal))
    (votes : List VoteRow) (total : Nat) :
    (formatResults pollType options votes total).map Prod.fst = resultsInitKeys pollType options ∧
      ∀ pr ∈ formatResults pollType options votes total,
        pr.2.count = countChoice votes pr.1 ∧
          pr.2.percentage = jsRoundPct (countChoice votes pr.1) total := by
  unfold formatResults resultsInitKeys
  split
  · refine ⟨rfl, ?_⟩
    intro pr hpr
    simp only [List.mem_cons, List.not_mem_nil, or_false] at hpr
    rcases hpr with rfl | rfl
    · exact ⟨rfl, rfl⟩
    · exact ⟨rfl, rfl⟩
  · constructor
    · rw [List.map_map]
      exact List.map_id _
    · intro pr hpr
      rcases List.mem_map.mp hpr with ⟨k, -, rfl⟩
      exact ⟨rfl, rfl⟩
  · constructor
    · rw [List.map_map]
      rfl
    · intro pr hpr
      rcases List.mem_map.mp hpr with ⟨p, -, rfl⟩
      exact ⟨rfl, rfl⟩
  · constructor
    · rw [List.map_map]
      rfl
    · intro pr hpr
      rcases List.mem_map.mp hpr with ⟨p, -, rfl⟩
      exact ⟨rfl, rfl⟩

/-- Keys-with-counts view of the formatted results. -/
theorem formatResults_key_count (pollType : String) (options : List (String × OptionVal))
    (votes : List VoteRow) (total : Nat) :
    (formatResults pollType options votes total).map (fun pr => (pr.1, pr.2.count)) =
      (resultsInitKeys pollType options).map (fun k => (k, countChoice votes k)) := by
  unfold formatResults resultsInitKeys
  split
  · rfl
  · rw [List.map_map]
    rfl
  · rw [List.map_map, List.map_map]
    rfl
  · rw [List.map_map, List.map_map]
    rfl

theorem countChoice_cons_ne {v : VoteRow} {k : String} (votes : List VoteRow)
    (h : v.choice ≠ k) : countChoice (v :: votes) k = countChoice votes k := by
  unfold countChoice
  rw [List.filter_cons_of_neg (by simpa using h)]

/-- Sum over a duplicate-free key list of `if a = k then 1 else 0`. -/
theorem sum_ite_mem (a : String) (keys : List String) (hnd : keys.Nodup) :
    (keys.map (fun k => if a = k then 1 else 0)).sum = if a ∈ keys then 1 else 0 := by
  induction keys with
  | nil => simp
  | cons k ks ih =>
    rcases List.nodup_cons.mp hnd with ⟨hk, hnd'⟩
    by_cases h : a = k
    · subst h
      simp [ih hnd', hk]
    · simp [h, ih hnd']

/-- With duplicate-free keys, the per-key counts sum to the number of votes
whose choice lies in the key set. -/
theorem sum_counts (keys : List String) (votes : List VoteRow) (hnd : keys.Nodup) :
    (keys.map (fun k => countChoice votes k)).sum =
      (votes.filter (fun v => decide (v.choice ∈ keys))).length := by
  induction votes with
  | nil => simp [countChoice]
  | cons v vs ih =>
    have h1 : keys.map (fun k => countChoice (v :: vs) k) =
        keys.map (fun k => countChoice vs k + if v.choice = k then 1 else 0) := by
      refine List.map_congr_left (fun k _ => ?_)
      unfold countChoice
      rw [List.filter_cons]
      by_cases h : v.choice = k
      · simp [h]
      · simp [h]
    rw [h1, List.sum_map_add, sum_ite_mem v.choice keys hnd, List.filter_cons]
    by_cases hv : v.choice ∈ keys
    · simp [hv, ih]
    · simp [hv, ih]

/-- A list member failing the filter predicate makes the filtered list
strictly shorter. -/
theorem length_filter_lt {l : List VoteRow} {p : VoteRow → Bool} {x : VoteRow}
    (hx : x ∈ l) (hpx : p x = false) : (l.filter p).length < l.length := by
  have hmem : x ∈ l.filter (fun v => !p v) := List.mem_filter.mpr ⟨hx, by simp [hpx]⟩
  have hpos : 0 < (l.filter (fun v => !p v)).length :=
    List.length_pos.mpr (List.ne_nil_of_mem hmem)
  have htot := List.length_eq_length_filter_add (l := l) p
  omega

/-! ## Claims -/

/-- C6: the choice-set derivation used by the Vote Validator and the one used
by the Result Aggregator's bucket initialization are extensionally equal: for
every poll type and options descriptor, the list of choices the vote route
validates against equals the list of keys the results route initializes to
count 0 (hence also membership of any candidate choice agrees). -/
theorem spec_C6_derivations_agree :
    ∀ (pollType : String) (options : List (String × OptionVal)),
      voteValidChoices pollType options = resultsInitKeys pollType options ∧
        ∀ c : String,
          (voteValidChoices pollType options).contains c =
            (resultsInitKeys pollType options).contains c :=
  fun _ _ => ⟨rfl, fun _ => rfl⟩

/-- C1 counterexample: session "sessA" has already voted on the binary poll;
a second call for the same (poll, session) whose choice is the illegal
"banana" is rejected as InvalidChoice (400), not as DuplicateVote (409) —
so "regardless of its choice … rejected as DuplicateVote" fails. -/
theorem spec_C1_counterexample :
    (dbVoted.votes.filter (fun v => v.poll_id == pidYesNo && v.session_id == "sessA")).length
        = 1 ∧
      (submitVote dbVoted .available pidYesNo "sessA" "banana" 5).1 =
        .err (invalidChoiceErr ["yes", "no"]) ∧
      (submitVote dbVoted .available pidYesNo "sessA" "banana" 5).1 ≠ .err alreadyVotedErr := by
  refine ⟨rfl, rfl, ?_⟩
  decide

/-- C1 amended: if a vote for (pollId, sessionId) is already recorded, a
second submitVote call for that pair leaves the vote ledger unchanged in
every case; it is rejected as DuplicateVote (409) when its choice lies in
the derived legal set and as InvalidChoice (400 — that check precedes the
duplicate check) otherwise, and the number of recorded votes for that
(poll, session) stays exactly as it was, so getResults still reflects one
vote for that session. -/
theorem spec_C1_amended
    (db : DB) (kv : KVStatus) (pid sid choice : String) (now t : Int)
    (poll : Poll) (w : VoteRow)
    (huuid : isValidUuid pid = true) (hch : choice ≠ "")
    (hfind : db.polls.find? (fun p => p.id == pid) = some poll)
    (hact : poll.is_active = true)
    (hexp : poll.room.expires_at = some t) (hnow : ¬ now > t)
    (hvoted : db.votes.find? (fun v => v.poll_id == pid && v.session_id == sid) = some w) :
    (submitVote db kv pid sid choice now).2.1 = db ∧
      (choice ∈ voteValidChoices poll.poll_type poll.options →
        (submitVote db kv pid sid choice now).1 = .err alreadyVotedErr) ∧
      (choice ∉ voteValidChoices poll.poll_type poll.options →
        (submitVote db kv pid sid choice now).1 =
          .err (invalidChoiceErr (voteValidChoices poll.poll_type poll.options))) ∧
      (((submitVote db kv pid sid choice now).2.1).votes.filter
            (fun v => v.poll_id == pid && v.session_id == sid)).length =
        (db.votes.filter (fun v => v.poll_id == pid && v.session_id == sid)).length := by
  have hred :=
    submitVote_reaches_choice_check db kv pid sid choice now t poll huuid hch hfind hact hexp hnow
  rw [hred]
  by_cases hm : choice ∈ voteValidChoices poll.poll_type poll.options
  · have hc : (voteValidChoices poll.poll_type poll.options).contains choice = true :=
      List.elem_iff.mpr hm
    simp only [hc, Bool.not_true, Bool.false_eq_true, if_false, hvoted]
    simp [hm]
  · have hc : (voteValidChoices poll.poll_type poll.options).contains choice = false :=
      Bool.eq_false_iff.mpr (fun habs => hm (List.elem_iff.mp habs))
    simp only [hc, Bool.not_false, if_true]
    simp [hm]

/-- Witness for C1 amended: after "sessA" voted "yes", the same session
voting the other legal choice "no" gets 409 and the database is unchanged. -/
theorem spec_C1_amended_witness :
    (submitVote dbVoted .available pidYesNo "sessA" "no" 5).1 = .err alreadyVotedErr ∧
      (submitVote dbVoted .available pidYesNo "sessA" "no" 5).2.1 = dbVoted :=
  ⟨(spec_C1_amended dbVoted .available pidYesNo "sessA" "no" 5 1000 pollYesNo
      ⟨pidYesNo, "sessA", "yes"⟩ (by decide) (by decide) (by rfl) (by rfl) (by rfl)
      (by decide) (by rfl)).2.1 (by decide),
    (spec_C1_amended dbVoted .available pidYesNo "sessA" "no" 5 1000 pollYesNo
      ⟨pidYesNo, "sessA", "yes"⟩ (by decide) (by decide) (by rfl) (by rfl) (by rfl)
      (by decide) (by rfl)).1⟩

/-- C2: once a vote request reaches choice validation (valid id, non-empty
choice per the §4.2 input contract, resolvable active poll in a fresh room)
on a creatable poll, the choice passes validation if and only if it belongs
to the spec's derived legal choice set (exactly {"yes","no"} for binary
polls, the stringified integers of [min,max] for rating polls, the
option-mapping keys for multiple choice); every invalid-choice rejection
carries the full legal set in its details, and a legal choice on a
first-time session with a working session store yields the 201 success. -/
theorem spec_C2_choice_validation
    (db : DB) (kv : KVStatus) (pid sid choice : String) (now t : Int) (poll : Poll)
    (huuid : isValidUuid pid = true) (hch : choice ≠ "")
    (hfind : db.polls.find? (fun p => p.id == pid) = some poll)
    (hact : poll.is_active = true)
    (hexp : poll.room.expires_at = some t) (hnow : ¬ now > t)
    (hwf : wellFormedPoll poll = true) :
    voteValidChoices poll.poll_type poll.options = specLegalChoices poll ∧
      ((submitVote db kv pid sid choice now).1 =
          .err (invalidChoiceErr (specLegalChoices poll)) ↔
        choice ∉ specLegalChoices poll) ∧
      (choice ∉ specLegalChoices poll →
        (submitVote db kv pid sid choice now).1 =
          .err ⟨400, "Invalid choice",
            "Choice must be one of: " ++ String.intercalate ", " (specLegalChoices poll)⟩) ∧
      (choice ∈ specLegalChoices poll →
        db.votes.find? (fun v => v.poll_id == pid && v.session_id == sid) = none →
        kv ≠ .throws →
        (submitVote db kv pid sid choice now).1 = .success ⟨pid, sid, choice⟩) := by
  have heq := voteValidChoices_eq_spec hwf
  have hred :=
    submitVote_reaches_choice_check db kv pid sid choice now t poll huuid hch hfind hact hexp hnow
  rw [heq] at hred
  by_cases hm : choice ∈ specLegalChoices poll
  · have hc : (specLegalChoices poll).contains choice = true := List.elem_iff.mpr hm
    refine ⟨heq, ?_, fun habs => absurd hm habs, ?_⟩
    · rw [hred]
      simp only [hc, Bool.not_true, Bool.false_eq_true, if_false]
      constructor
      · intro habs
        exfalso
        rcases hf : db.votes.find? (fun v => v.poll_id == pid && v.session_id == sid) with
          _ | w
        · rw [hf] at habs
          cases kv <;> simp [invalidChoiceErr, voteServerErr] at habs
        · rw [hf] at habs
          simp [invalidChoiceErr, alreadyVotedErr] at habs
      · intro habs
        exact absurd hm habs
    · intro _ hnone hkv
      rw [hred]
      simp only [hc, Bool.not_true, Bool.false_eq_true, if_false, hnone]
  · have hc : (specLegalChoices poll).contains choice = false :=
      Bool.eq_false_iff.mpr (fun habs => hm (List.elem_iff.mp habs))
    refine ⟨heq, ?_, ?_, fun habs => absurd habs hm⟩
    · rw [hred]
      simp [hc, hm]
    · intro _
      rw [hred]
      simp only [hc, Bool.not_false, if_true]
      rfl

/-- Witness for C2: on the rating poll with min=1, max=5, choice "0" is
rejected with the details listing "1, 2, 3, 4, 5", while the legal choice
"3" from a fresh session succeeds. -/
theorem spec_C2_witness :
    (submitVote dbRating .available pidRating "sessA" "0" 5).1 =
        .err ⟨400, "Invalid choice", "Choice must be one of: 1, 2, 3, 4, 5"⟩ ∧
      (submitVote dbRating .available pidRating "sessB" "3" 5).1 =
        .success ⟨pidRating, "sessB", "3"⟩ := by
  constructor
  · rw [(spec_C2_choice_validation dbRating .available pidRating "sessA" "0" 5 1000 pollRating
      (by decide) (by decide) (by rfl) (by rfl) (by rfl) (by decide) (by decide)).2.2.1
      (by decide)]
    rfl
  · exact (spec_C2_choice_validation dbRating .available pidRating "sessB" "3" 5 1000 pollRating
      (by decide) (by decide) (by rfl) (by rfl) (by rfl) (by decide) (by decide)).2.2.2
      (by decide) (by rfl) (by simp)

/-- C7: for every pollId that fails the UUID format check, both the vote
route and the results route answer 400 "Invalid poll ID" with zero
storage-layer calls, and the database is unchanged. -/
theorem spec_C7_invalid_id_no_storage (db : DB) (kv : KVStatus)
    (pid sid choice : String) (now : Int) (h : isValidUuid pid = false) :
    submitVote db kv pid sid choice now = (.err voteUuidErr, db, 0) ∧
      getResults db pid now = (.err voteUuidErr, 0) := by
  constructor
  · unfold submitVote
    simp [h]
  · unfold getResults
    simp [h]

/-- Witness for C7 at the spec's own example identifier "not-a-valid-id". -/
theorem spec_C7_witness :
    submitVote dbYesNo .available "not-a-valid-id" "sessA" "yes" 5 =
        (.err voteUuidErr, dbYesNo, 0) ∧
      getResults dbYesNo "not-a-valid-id" 5 = (.err voteUuidErr, 0) :=
  spec_C7_invalid_id_no_storage dbYesNo .available "not-a-valid-id" "sessA" "yes" 5 (by decide)

/-- C5 (code bug evidence): on a first, fully valid vote, if the KV write
inside `SessionManager.createSession` throws, the route's catch-all turns
the outcome into a 500 — even though the vote row was already inserted
(the returned database contains it).  With the KV store merely unavailable
(`getKvClientSafe` returning null) the vote does succeed with 201, which is
the best-effort behaviour the spec mandates for all failures. -/
theorem spec_C5_kv_throw_fails_vote :
    submitVote dbYesNo .throws pidYesNo "sessA" "yes" 5 =
        (.err voteServerErr, ⟨[roomFresh], [pollYesNo], [⟨pidYesNo, "sessA", "yes"⟩]⟩, 3) ∧
      submitVote dbYesNo .unavailable pidYesNo "sessA" "yes" 5 =
        (.success ⟨pidYesNo, "sessA", "yes"⟩,
          ⟨[roomFresh], [pollYesNo], [⟨pidYesNo, "sessA", "yes"⟩]⟩, 3) := by
  constructor <;> rfl

/-- C4 counterexample: a poll that is inactive and whose room has also
expired is rejected as "Poll inactive", not "Room expired" — the code
checks `is_active` before the room expiration, contrary to the claim. -/
theorem spec_C4_counterexample :
    pollInactive.is_active = false ∧
      isRoomExpired pollInactive.room.expires_at 5 = true ∧
      (submitVote dbC4 .available pidInactive "sessA" "yes" 5).1 = .err pollInactiveErr ∧
      (submitVote dbC4 .available pidInactive "sessA" "yes" 5).1 ≠ .err roomExpiredErr := by
  refine ⟨rfl, rfl, rfl, ?_⟩
  decide

/-- C4 amended: submitVote checks poll inactivity before room expiration.
For every resolvable poll with `is_active` false it rejects as Inactive
(410 "Poll inactive") even when the owning room's expiration is null or
past; Expired is returned only for active polls whose room has a null or
past expiration. -/
theorem spec_C4_amended (db : DB) (kv : KVStatus) (pid sid choice : String)
    (now : Int) (poll : Poll) (huuid : isValidUuid pid = true) (hch : choice ≠ "")
    (hfind : db.polls.find? (fun p => p.id == pid) = some poll) :
    (poll.is_active = false →
      submitVote db kv pid sid choice now = (.err pollInactiveErr, db, 1)) ∧
      (poll.is_active = true → isRoomExpired poll.room.expires_at now = true →
        submitVote db kv pid sid choice now = (.err roomExpiredErr, db, 1)) := by
  have hch' : (choice == "") = false := beq_eq_false_iff_ne.mpr hch
  constructor
  · intro hact
    unfold submitVote
    simp [huuid, hch', hfind, hact]
  · intro hact hexp
    unfold submitVote
    unfold isRoomExpired at hexp
    cases he : poll.room.expires_at with
    | none => simp [huuid, hch', hfind, hact, he]
    | some t =>
      rw [he] at hexp
      simp only [decide_eq_true_eq] at hexp
      simp [huuid, hch', hfind, hact, he, hexp]

/-- Witness for C4 amended, exercising both conjuncts on concrete polls in
an expired room. -/
theorem spec_C4_amended_witness :
    submitVote dbC4 .available pidInactive "sessA" "yes" 5 = (.err pollInactiveErr, dbC4, 1) ∧
      submitVote dbC4 .available pidActiveExpired "sessA" "yes" 5 =
        (.err roomExpiredErr, dbC4, 1) :=
  ⟨(spec_C4_amended dbC4 .available pidInactive "sessA" "yes" 5 pollInactive
      (by decide) (by decide) (by rfl)).1 (by rfl),
    (spec_C4_amended dbC4 .available pidActiveExpired "sessA" "yes" 5 pollActiveExpired
      (by decide) (by decide) (by rfl)).2 (by rfl) (by rfl)⟩

/-- Reduction of `getResults` once the identifier, lookup and expiration
checks have passed. -/
theorem getResults_ok (db : DB) (pid : String) (now t : Int) (poll : Poll)
    (huuid : isValidUuid pid = true)
    (hfind : db.polls.find? (fun p => p.id == pid) = some poll)
    (hexp : poll.room.expires_at = some t) (hnow : ¬ now > t) :
    getResults db pid now =
      (.ok ⟨pid, poll.question, poll.poll_type,
        (db.votes.filter (fun v => v.poll_id == pid)).length,
        formatResults poll.poll_type poll.options
          (db.votes.filter (fun v => v.poll_id == pid))
          (db.votes.filter (fun v => v.poll_id == pid)).length⟩, 2) := by
  unfold getResults
  simp [huuid, hfind, hexp, hnow]

/-- C3 counterexample: on the binary poll with 23 "yes" and 17 "no" votes,
the program reports 57 for "yes" — `(23/40)*100` evaluates in binary64 to
57.49999999999999…, below the exact 57.5 — while the claim's formula
`round(count / total_votes * 100)` over exact integer rounding gives 58.
("no" conversely gets 43 because 17/40*100 is exactly the double 42.5.) -/
theorem spec_C3_counterexample :
    getResults dbC3 pidYesNo 5 = (.ok resC3, 2) ∧
      resC3.total_votes = 40 ∧
      resC3.results.map (fun pr => (pr.1, pr.2.count, pr.2.percentage)) =
        [("yes", (23, 57)), ("no", (17, 43))] ∧
      ¬ ((57 : ℤ) = round (((23 : ℚ) / 40) * 100)) := by
  refine ⟨by rfl, by rfl, by rfl, ?_⟩
  rw [round_eq]
  norm_num

/-- C3 amended: for every resolvable poll in a fresh room, getResults
succeeds with one entry per key of the derived legal choice set; each
entry's count is that key's vote tally and its percentage is `Math.round`
of the binary64 evaluation of `(count / total_votes) * 100` — which can
differ by one from exact rational rounding, e.g. 23 of 40 reports 57, not
58 — keys with no votes get count 0 and percentage 0, and with zero total
votes every entry is 0 / 0 with no division performed. -/
theorem spec_C3_results_totality (db : DB) (pid : String) (now t : Int) (poll : Poll)
    (huuid : isValidUuid pid = true)
    (hfind : db.polls.find? (fun p => p.id == pid) = some poll)
    (hexp : poll.room.expires_at = some t) (hnow : ¬ now > t)
    (hwf : wellFormedPoll poll = true) :
    ∃ res : ResultSet,
      getResults db pid now = (.ok res, 2) ∧
        res.total_votes = (db.votes.filter (fun v => v.poll_id == pid)).length ∧
        res.results.map Prod.fst = specLegalChoices poll ∧
        (∀ pr ∈ res.results,
          pr.2.count = countChoice (db.votes.filter (fun v => v.poll_id == pid)) pr.1 ∧
            pr.2.percentage = jsRoundPct pr.2.count res.total_votes ∧
            (pr.2.count = 0 → pr.2.percentage = 0)) ∧
        (res.total_votes = 0 → ∀ pr ∈ res.results, pr.2.count = 0 ∧ pr.2.percentage = 0) := by
  obtain ⟨hkeys, hentries⟩ :=
    formatResults_spec poll.poll_type poll.options
      (db.votes.filter (fun v => v.poll_id == pid))
      (db.votes.filter (fun v => v.poll_id == pid)).length
  refine ⟨_, getResults_ok db pid now t poll huuid hfind hexp hnow, rfl, ?_, ?_, ?_⟩
  · rw [hkeys]
    exact voteValidChoices_eq_spec hwf
  · intro pr hpr
    obtain ⟨h1, h2⟩ := hentries pr hpr
    refine ⟨h1, ?_, ?_⟩
    · rw [h1]
      exact h2
    · intro h0
      rw [h1] at h0
      rw [h2, h0]
      exact jsRoundPct_zero_count _
  · intro h0 pr hpr
    obtain ⟨h1, h2⟩ := hentries pr hpr
    have hnil : db.votes.filter (fun v => v.poll_id == pid) = [] :=
      List.length_eq_zero.mp h0
    have hcz : countChoice (db.votes.filter (fun v => v.poll_id == pid)) pr.1 = 0 := by
      rw [hnil]
      rfl
    refine ⟨by rw [h1, hcz], ?_⟩
    rw [h2, hcz]
    exact jsRoundPct_zero_count _

/-- Witness for C3 amended: the binary poll with zero recorded votes yields
entries for both "yes" and "no" with count 0 and percentage 0. -/
theorem spec_C3_witness :
    ∃ res : ResultSet,
      getResults dbYesNo pidYesNo 5 = (.ok res, 2) ∧
        res.total_votes = (dbYesNo.votes.filter (fun v => v.poll_id == pidYesNo)).length ∧
        res.results.map Prod.fst = specLegalChoices pollYesNo ∧
        (∀ pr ∈ res.results,
          pr.2.count = countChoice (dbYesNo.votes.filter (fun v => v.poll_id == pidYesNo)) pr.1 ∧
            pr.2.percentage = jsRoundPct pr.2.count res.total_votes ∧
            (pr.2.count = 0 → pr.2.percentage = 0)) ∧
        (res.total_votes = 0 → ∀ pr ∈ res.results, pr.2.count = 0 ∧ pr.2.percentage = 0) :=
  spec_C3_results_totality dbYesNo pidYesNo 5 1000 pollYesNo (by decide) (by rfl) (by rfl)
    (by decide) (by decide)

/-- C8: a fetched vote whose choice is not among the initialized bucket keys
is ignored — adding it leaves every per-choice count unchanged, the
aggregation still succeeds, and only the total goes up by one. -/
theorem spec_C8_unknown_choice_tolerated (db : DB) (pid : String) (now t : Int)
    (poll : Poll) (bad : VoteRow)
    (huuid : isValidUuid pid = true)
    (hfind : db.polls.find? (fun p => p.id == pid) = some poll)
    (hexp : poll.room.expires_at = some t) (hnow : ¬ now > t)
    (hbp : bad.poll_id = pid)
    (hbc : bad.choice ∉ resultsInitKeys poll.poll_type poll.options) :
    ∃ res res' : ResultSet,
      getResults db pid now = (.ok res, 2) ∧
        getResults ⟨db.rooms, db.polls, bad :: db.votes⟩ pid now = (.ok res', 2) ∧
        res'.total_votes = res.total_votes + 1 ∧
        res'.results.map (fun pr => (pr.1, pr.2.count)) =
          res.results.map (fun pr => (pr.1, pr.2.count)) := by
  have hbad : (bad.poll_id == pid) = true := beq_iff_eq.mpr hbp
  have hfilter : (bad :: db.votes).filter (fun v => v.poll_id == pid) =
      bad :: db.votes.filter (fun v => v.poll_id == pid) :=
    List.filter_cons_of_pos (by simpa using hbad)
  have hok := getResults_ok db pid now t poll huuid hfind hexp hnow
  have hok' := getResults_ok ⟨db.rooms, db.polls, bad :: db.votes⟩ pid now t poll huuid hfind
    hexp hnow
  rw [show (⟨db.rooms, db.polls, bad :: db.votes⟩ : DB).votes = bad :: db.votes from rfl,
    hfilter] at hok'
  refine ⟨_, _, hok, hok', rfl, ?_⟩
  rw [formatResults_key_count, formatResults_key_count]
  refine List.map_congr_left (fun k hk => ?_)
  have hne : bad.choice ≠ k := fun habs => hbc (habs ▸ hk)
  rw [countChoice_cons_ne _ hne]

/-- Witness for C8: on the rating poll with one legal vote "3", adding a
vote "9" (outside 1–5) keeps every bucket count the same and only raises
the total to 2. -/
theorem spec_C8_witness :
    ∃ res res' : ResultSet,
      getResults dbC8 pidRating 5 = (.ok res, 2) ∧
        getResults ⟨dbC8.rooms, dbC8.polls, ⟨pidRating, "s2", "9"⟩ :: dbC8.votes⟩ pidRating 5 =
          (.ok res', 2) ∧
        res'.total_votes = res.total_votes + 1 ∧
        res'.results.map (fun pr => (pr.1, pr.2.count)) =
          res.results.map (fun pr => (pr.1, pr.2.count)) :=
  spec_C8_unknown_choice_tolerated dbC8 pidRating 5 1000 pollRating ⟨pidRating, "s2", "9"⟩
    (by decide) (by rfl) (by rfl) (by decide) (by rfl) (by decide)

/-- C10 counterexample: on the 1–5 rating poll with 40 fetched votes of
which one ("0") is unrecognized, the reported percentages are
18/18/18/23/23 — their sum is exactly 100, refuting the claim that the
legal choices' percentages must sum to less than 100. -/
theorem spec_C10_counterexample :
    (⟨pidRating, "sf", "0"⟩ : VoteRow) ∈ dbC10.votes ∧
      ("0" ∉ resultsInitKeys pollRating.poll_type pollRating.options) ∧
      getResults dbC10 pidRating 5 = (.ok resC10, 2) ∧
      resC10.total_votes = 40 ∧
      (resC10.results.map (fun pr => pr.2.count)).sum = 39 ∧
      (resC10.results.map (fun pr => pr.2.percentage)).sum = 100 := by
  refine ⟨by decide, by decide, by rfl, by rfl, by rfl, by rfl⟩

/-- C10 amended: with at least one unrecognized-choice vote among the
poll's fetched votes, the per-choice counts sum to strictly less than
`total_votes` (which counts every fetched row), and every reported
percentage is still computed against that larger total, as `Math.round` of
the binary64 evaluation of `(count / total_votes) * 100` — but, because of
per-bucket rounding, the legal choices' percentages need not sum to less
than 100. -/
theorem spec_C10_amended (db : DB) (pid : String) (now t : Int) (poll : Poll)
    (bad : VoteRow)
    (huuid : isValidUuid pid = true)
    (hfind : db.polls.find? (fun p => p.id == pid) = some poll)
    (hexp : poll.room.expires_at = some t) (hnow : ¬ now > t)
    (hnd : (resultsInitKeys poll.poll_type poll.options).Nodup)
    (hbad : bad ∈ db.votes) (hbp : bad.poll_id = pid)
    (hbc : bad.choice ∉ resultsInitKeys poll.poll_type poll.options) :
    ∃ res : ResultSet,
      getResults db pid now = (.ok res, 2) ∧
        res.total_votes = (db.votes.filter (fun v => v.poll_id == pid)).length ∧
        (res.results.map (fun pr => pr.2.count)).sum < res.total_votes ∧
        (∀ pr ∈ res.results,
          pr.2.percentage = jsRoundPct pr.2.count res.total_votes) := by
  have hok := getResults_ok db pid now t poll huuid hfind hexp hnow
  have hbadF : bad ∈ db.votes.filter (fun v => v.poll_id == pid) :=
    List.mem_filter.mpr ⟨hbad, by simpa using hbp⟩
  obtain ⟨hkeys, hentries⟩ :=
    formatResults_spec poll.poll_type poll.options
      (db.votes.filter (fun v => v.poll_id == pid))
      (db.votes.filter (fun v => v.poll_id == pid)).length
  refine ⟨_, hok, rfl, ?_, ?_⟩
  · have hsnd : (formatResults poll.poll_type poll.options
          (db.votes.filter (fun v => v.poll_id == pid))
          (db.votes.filter (fun v => v.poll_id == pid)).length).map (fun pr => pr.2.count) =
        (resultsInitKeys poll.poll_type poll.options).map
          (fun k => countChoice (db.votes.filter (fun v => v.poll_id == pid)) k) := by
      have := congrArg (List.map Prod.snd)
        (formatResults_key_count poll.poll_type poll.options
          (db.votes.filter (fun v => v.poll_id == pid))
          (db.votes.filter (fun v => v.poll_id == pid)).length)
      simpa [List.map_map, Function.comp] using this
    rw [hsnd, sum_counts _ _ hnd]
    exact length_filter_lt hbadF
      (by simpa using fun habs => hbc habs)
  · intro pr hpr
    obtain ⟨h1, h2⟩ := hentries pr hpr
    rw [h1]
    exact h2

/-- Witness for C10 amended, at the 40-vote fixture: counts sum to 39 < 40
and each percentage is the double-rounded quotient against 40. -/
theorem spec_C10_amended_witness :
    ∃ res : ResultSet,
      getResults dbC10 pidRating 5 = (.ok res, 2) ∧
        res.total_votes = (dbC10.votes.filter (fun v => v.poll_id == pidRating)).length ∧
        (res.results.map (fun pr => pr.2.count)).sum < res.total_votes ∧
        (∀ pr ∈ res.results,
          pr.2.percentage = jsRoundPct pr.2.count res.total_votes) :=
  spec_C10_amended dbC10 pidRating 5 1000 pollRating ⟨pidRating, "sf", "0"⟩
    (by decide) (by rfl) (by rfl) (by decide) (by decide) (by decide) (by rfl) (by decide)

/-- C9 counterexample: the stored room has code "ABC123"; supplying the
lowercase form "abc123" is rejected as malformed (400, no lookup) because
`validateRoomCode` requires uppercase letters and runs before
`normalizeRoomCode`, while the uppercase form resolves the room. -/
theorem spec_C9_counterexample :
    getRoom dbRooms .available "abc123" 5 = (.err roomCodeErr, 0) ∧
      getRoom dbRooms .available "ABC123" 5 = (.ok roomFresh, 1) := by
  constructor <;> rfl

/-- C9 amended: GET /rooms/{code} validates the raw code against the
uppercase-only pattern `[A-Z0-9]{6}` before normalization, so any code
failing it — in particular a lowercase form of a stored code — is rejected
as malformed (400) with no storage access; for codes that pass validation
the uppercase-normalization is an identity, so rooms are resolved by exact
(already-uppercase) code match. -/
theorem spec_C9_amended (db : DB) (kv : KVStatus) (code : String) (now : Int) :
    (validateRoomCode code = false → getRoom db kv code now = (.err roomCodeErr, 0)) ∧
      (validateRoomCode code = true → normalizeRoomCode code = code) := by
  constructor
  · intro h
    unfold getRoom
    simp [h]
  · intro h
    unfold validateRoomCode at h
    simp only [Bool.and_eq_true] at h
    exact normalizeRoomCode_eq_self h.2

/-- Witness for C9 amended: a malformed (lowercase) code is rejected, and
normalization is an identity on a validated code. -/
theorem spec_C9_amended_witness :
    getRoom dbRooms .available "abc123" 5 = (.err roomCodeErr, 0) ∧
      normalizeRoomCode "ABC123" = "ABC123" :=
  ⟨(spec_C9_amended dbRooms .available "abc123" 5).1 (by decide),
    (spec_C9_amended dbRooms .available "ABC123" 5).2 (by decide)⟩

end PollRoom
